import Mathlib

/-
Verification of the extraction-and-upsert core of the SpaceX ETL pipeline
(files: include/extractors/spacex_extractor.py, include/utils/database_utils.py,
dags/spacex_etl_dag.py).

The relational store is shallowly embedded: a bronze table is a list of rows,
one per stored record, in insertion order.  PostgreSQL statements are embedded
as Lean functions on tables; the per-record statement
  INSERT ... ON CONFLICT (id) DO UPDATE SET data = EXCLUDED.data,
                                            extracted_at = EXCLUDED.extracted_at
  RETURNING (xmax = 0) AS inserted
becomes `upsertRow`, which updates the (unique, by primary key) row carrying
the id when one exists and appends a fresh row otherwise, reporting the
insert/update classification as a Bool.  Connection handling is made explicit
with open/close counters so the resource claims of the spec can be stated.
Failure of the database mid-call is injected through explicit outcome
parameters (`StoreOutcome`, `DbOutcome`); psycopg2 semantics are kept: a
connection abandoned without commit rolls its transaction back.
-/

namespace SpacexEtl

/-- The JSON fields of an API document that the SQL in the repository actually
inspects: the full serialized payload is opaque (`raw`), the quality checks
read the top-level `name` and `date_utc` keys of launches and the nested
`spaceTrack -> DECAYED` text of starlink records. -/
structure Payload where
  raw : String
  name : Option String
  date_utc : Option String
  decayed : Option String
deriving DecidableEq

/-- One record returned by the SpaceX API: `launch['id']` plus the document. -/
structure ApiRecord where
  id : String
  payload : Payload
deriving DecidableEq

/-- One row of a bronze table: columns id, data, extracted_at, source_system. -/
structure Row where
  id : String
  data : Payload
  extracted_at : Nat
  source_system : String
deriving DecidableEq

/-- A bronze table (bronze.launches / bronze.starlink / bronze.rockets). -/
abbrev Table := List Row

/-- The single upsert statement executed per record.  With the primary key on
`id` at most one row can carry the id; `ON CONFLICT (id) DO UPDATE` overwrites
that row's data and extracted_at (source_system is not in the UPDATE list),
otherwise the row is inserted.  The returned Bool is the statement's
`RETURNING (xmax = 0) AS inserted` flag: true exactly when the id did not
exist before the statement. -/
def upsertRow (t : Table) (rid : String) (p : Payload) (ts : Nat) (src : String) :
    Table × Bool :=
  match t with
  | [] => ([{ id := rid, data := p, extracted_at := ts, source_system := src }], true)
  | r :: rest =>
    if r.id = rid then
      ({ r with data := p, extracted_at := ts } :: rest, false)
    else
      let res := upsertRow rest rid p ts src
      (r :: res.1, res.2)

/-- The extraction loop over one fetched batch: upsert every record in order,
accumulating the inserted/updated counters exactly as the Python loop does. -/
def upsertAll (t : Table) (records : List ApiRecord) (ts : Nat) (src : String) :
    Table × Nat × Nat :=
  match records with
  | [] => (t, 0, 0)
  | r :: rest =>
    let step := upsertRow t r.id r.payload ts src
    let res := upsertAll step.1 rest ts src
    (res.1, (if step.2 then 1 else 0) + res.2.1, (if step.2 then 0 else 1) + res.2.2)

/-- SELECT data FROM t WHERE id = i (primary key lookup; first match). -/
def lookupData (t : Table) (i : String) : Option Payload :=
  match t with
  | [] => none
  | r :: rest => if r.id = i then some r.data else lookupData rest i

/-- Whether a row with the given id exists (the upsert's conflict condition). -/
def rowExists (t : Table) (i : String) : Bool :=
  match t with
  | [] => false
  | r :: rest => if r.id = i then true else rowExists rest i

/-- Modelled from the spec: the payload of the LAST occurrence of id `i` in a
batch, the spec's "last write per id wins if the input batch itself contains
duplicate ids".  Used only to compare the store's behaviour against the
spec's words. -/
def specLastPayload (batch : List ApiRecord) (i : String) : Option Payload :=
  match batch with
  | [] => none
  | r :: rest =>
    (specLastPayload rest i).or (if r.id = i then some r.payload else none)

/-! ### Basic lemmas about the upsert statement -/

theorem upsertRow_snd (t : Table) (rid : String) (p : Payload) (ts : Nat) (src : String) :
    (upsertRow t rid p ts src).2 = !(rowExists t rid) := by
  induction t with
  | nil => simp [upsertRow, rowExists]
  | cons r rest ih =>
    by_cases h : r.id = rid <;> simp [upsertRow, rowExists, h, ih]

theorem upsertRow_map_id (t : Table) (rid : String) (p : Payload) (ts : Nat) (src : String) :
    (upsertRow t rid p ts src).1.map Row.id =
      if rowExists t rid then t.map Row.id else t.map Row.id ++ [rid] := by
  induction t with
  | nil => simp [upsertRow, rowExists]
  | cons r rest ih =>
    by_cases h : r.id = rid
    · simp [upsertRow, rowExists, h]
    · by_cases h2 : rowExists rest rid <;>
        simp [upsertRow, rowExists, h, h2, ih]

theorem not_rowExists_not_mem (t : Table) (i : String) (h : rowExists t i = false) :
    i ∉ t.map Row.id := by
  induction t with
  | nil => simp
  | cons r rest ih =>
    by_cases hr : r.id = i
    · simp [rowExists, hr] at h
    · simp [rowExists, hr] at h
      simp [hr, ih h]
      exact fun hc => hr hc.symm

theorem upsertRow_nodup (t : Table) (rid : String) (p : Payload) (ts : Nat) (src : String)
    (h : (t.map Row.id).Nodup) : ((upsertRow t rid p ts src).1.map Row.id).Nodup := by
  rw [upsertRow_map_id]
  by_cases he : rowExists t rid
  · simpa [he] using h
  · have he2 : rowExists t rid = false := by simpa using he
    simp only [he2, Bool.false_eq_true, if_false]
    rw [List.nodup_append]
    refine ⟨h, List.nodup_singleton rid, ?_⟩
    intro a ha hb
    simp at hb
    rw [hb] at ha
    exact not_rowExists_not_mem t rid he2 ha

theorem lookupData_upsertRow (t : Table) (rid : String) (p : Payload) (ts : Nat)
    (src : String) (i : String) :
    lookupData (upsertRow t rid p ts src).1 i =
      if i = rid then some p else lookupData t i := by
  induction t with
  | nil =>
    by_cases h : i = rid
    · simp [upsertRow, lookupData, h]
    · have h2 : ¬ rid = i := fun hc => h hc.symm
      simp [upsertRow, lookupData, h, h2]
  | cons r rest ih =>
    by_cases hr : r.id = rid
    · by_cases hi : i = rid
      · subst hi
        simp [upsertRow, lookupData, hr]
      · have hi2 : ¬ rid = i := fun hc => hi hc.symm
        have hri : ¬ r.id = i := fun hc => hi (hc.symm.trans hr)
        simp [upsertRow, lookupData, hr, hri, hi, hi2]
    · by_cases hri : r.id = i
      · have hi : ¬ i = rid := fun hc => hr (hri.trans hc)
        simp [upsertRow, lookupData, hr, hri, hi]
      · simp [upsertRow, lookupData, hr, hri, ih]

/-! ### Batch-level lemmas -/

theorem upsertAll_counts (t : Table) (records : List ApiRecord) (ts : Nat) (src : String) :
    (upsertAll t records ts src).2.1 + (upsertAll t records ts src).2.2 = records.length := by
  induction records generalizing t with
  | nil => simp [upsertAll]
  | cons r rest ih =>
    simp only [upsertAll]
    have hih := ih (upsertRow t r.id r.payload ts src).1
    cases h : (upsertRow t r.id r.payload ts src).2 <;>
      simp [h, List.length_cons] <;> omega

theorem upsertAll_nodup (t : Table) (records : List ApiRecord) (ts : Nat) (src : String)
    (h : (t.map Row.id).Nodup) : ((upsertAll t records ts src).1.map Row.id).Nodup := by
  induction records generalizing t with
  | nil => simpa [upsertAll] using h
  | cons r rest ih =>
    simp only [upsertAll]
    exact ih _ (upsertRow_nodup t r.id r.payload ts src h)

theorem lookupData_upsertAll (t : Table) (batch : List ApiRecord) (ts : Nat) (src : String)
    (i : String) :
    lookupData (upsertAll t batch ts src).1 i =
      (specLastPayload batch i).or (lookupData t i) := by
  induction batch generalizing t with
  | nil => simp [upsertAll, specLastPayload]
  | cons r rest ih =>
    simp only [upsertAll, specLastPayload]
    rw [ih, lookupData_upsertRow]
    cases hlast : specLastPayload rest i with
    | some d => simp [Option.or]
    | none =>
      rcases eq_or_ne i r.id with h | h
      · subst h
        simp [Option.or]
      · have h2 : ¬ (r.id = i) := fun hc => h hc.symm
        simp [Option.or, h, h2]

/-- One extraction run writes one fetched batch with one timestamp; a history
of runs is a fold of `upsertAll` over the successive batches. -/
def applyBatches (t : Table) (batches : List (List ApiRecord × Nat)) (src : String) : Table :=
  match batches with
  | [] => t
  | b :: rest => applyBatches (upsertAll t b.1 b.2 src).1 rest src

theorem applyBatches_nodup (t : Table) (batches : List (List ApiRecord × Nat)) (src : String)
    (h : (t.map Row.id).Nodup) : ((applyBatches t batches src).map Row.id).Nodup := by
  induction batches generalizing t with
  | nil => simpa [applyBatches] using h
  | cons b rest ih =>
    simp only [applyBatches]
    exact ih _ (upsertAll_nodup t b.1 b.2 src h)

/-! ### Database state, ledger and the extraction functions -/

/-- One row of bronze.pipeline_metadata, as inserted by log_pipeline_run
(run_date is auto-assigned by the database and not modelled). -/
structure LedgerEntry where
  pipeline_name : String
  status : String
  records_processed : Nat
  error_message : Option String
deriving DecidableEq

/-- The visible (committed) database state, plus counters of how many
psycopg2 connections have been opened and explicitly closed, so resource
handling can be stated. -/
structure DBState where
  launches : Table
  starlink : Table
  rockets : Table
  ledger : List LedgerEntry
  conns_opened : Nat
  conns_closed : Nat
deriving DecidableEq

/-- Injected outcome for a database interaction that is a single
connect-then-statement block: the connect itself can raise (no connection is
ever opened), or a statement can raise after the connect succeeded (the
connection was opened and the except-path of the source never closes it),
or everything succeeds. -/
inductive DbOutcome where
  | ok
  | connectFail (msg : String)
  | queryFail (msg : String)
deriving DecidableEq

/-- Injected outcome for the extraction's store phase: connect failure,
or the upsert of the record at a given 0-based index raising, or success. -/
inductive StoreOutcome where
  | ok
  | connectFail (msg : String)
  | recordFail (idx : Nat) (msg : String)
deriving DecidableEq

/-- Which per-record failure the in-loop statement sees, given the store
outcome (connect failures happen before the loop is reached). -/
def storeFailParam : StoreOutcome → Option (Nat × String)
  | .ok => none
  | .connectFail _ => none
  | .recordFail k msg => some (k, msg)

/-- True when the statement for the record at index idx raises. -/
def failsHere : Option (Nat × String) → Nat → Bool
  | some (k, _), idx => idx = k
  | none, _ => false

/-- The message of the injected statement failure (irrelevant default). -/
def failMsg : Option (Nat × String) → String
  | some (_, m) => m
  | none => ""

/-- SpaceXExtractor.log_pipeline_run: open a fresh connection, INSERT one row
into bronze.pipeline_metadata, commit, close.  The whole body is inside
try/except and every exception is logged and swallowed, so the function
always returns a state and never re-raises.  If the insert raises after the
connect succeeded, the source's except-path leaves that connection open. -/
def log_pipeline_run (st : DBState) (outcome : DbOutcome)
    (pipeline_name status : String) (records : Nat) (error : Option String) : DBState :=
  match outcome with
  | .connectFail _ => st
  | .queryFail _ => { st with conns_opened := st.conns_opened + 1 }
  | .ok =>
      { st with
        ledger := st.ledger ++ [⟨pipeline_name, status, records, error⟩],
        conns_opened := st.conns_opened + 1,
        conns_closed := st.conns_closed + 1 }

/-- The for-loop of extract_launches / extract_starlink over the fetched
batch: each iteration runs the classifying upsert statement and bumps the
inserted/updated counter; an injected statement failure raises out of the
loop.  The loop acts on the transaction-local view of the table; the caller
commits it (or abandons it) afterwards. -/
def upsertLoop (t : Table) (records : List ApiRecord) (ts : Nat) (src : String)
    (failAt : Option (Nat × String)) (idx ins upd : Nat) :
    Except String (Table × Nat × Nat) :=
  match records with
  | [] => .ok (t, ins, upd)
  | r :: rest =>
    if failsHere failAt idx then .error (failMsg failAt)
    else
      let step := upsertRow t r.id r.payload ts src
      upsertLoop step.1 rest ts src failAt (idx + 1)
        (if step.2 then ins + 1 else ins) (if step.2 then upd else upd + 1)

/-- The for-loop of extract_rockets: the same upsert statement but without a
RETURNING clause — nothing is fetched back and no counters exist. -/
def rocketsLoop (t : Table) (records : List ApiRecord) (ts : Nat) (src : String)
    (failAt : Option (Nat × String)) (idx : Nat) : Except String Table :=
  match records with
  | [] => .ok t
  | r :: rest =>
    if failsHere failAt idx then .error (failMsg failAt)
    else
      rocketsLoop (upsertRow t r.id r.payload ts src).1 rest ts src failAt (idx + 1)

/-- SpaceXExtractor.extract_launches.  `fetch` is the decoded result of the
HTTP GET (an exception covers network errors, non-2xx statuses and non-JSON
bodies); `ts` stands for datetime.now() (the source stamps each record
separately, but nothing here depends on the stamps differing within a run).
On success: upsert every record, commit once, close, log a success ledger
entry, return the batch length.  On any failure: log a failed ledger entry
(best-effort) and re-raise the original error; the store connection, if
already opened, is neither committed (so the transaction rolls back and no
write of the batch becomes visible) nor closed. -/
def extract_launches (st : DBState) (fetch : Except String (List ApiRecord)) (ts : Nat)
    (dagId : String) (store : StoreOutcome) (lo : DbOutcome) : DBState × Except String Nat :=
  match fetch with
  | .error e =>
      (log_pipeline_run st lo (dagId ++ ".extract_launches") "failed" 0 (some e), .error e)
  | .ok launches =>
      match store with
      | .connectFail msg =>
          (log_pipeline_run st lo (dagId ++ ".extract_launches") "failed" 0 (some msg),
           .error msg)
      | s =>
          let st1 := { st with conns_opened := st.conns_opened + 1 }
          match upsertLoop st.launches launches ts "spacex_api_v4" (storeFailParam s) 0 0 0 with
          | .ok res =>
              let st2 := { st1 with launches := res.1, conns_closed := st1.conns_closed + 1 }
              (log_pipeline_run st2 lo (dagId ++ ".extract_launches") "success"
                 launches.length none,
               .ok launches.length)
          | .error e =>
              (log_pipeline_run st1 lo (dagId ++ ".extract_launches") "failed" 0 (some e),
               .error e)

/-- SpaceXExtractor.extract_starlink: identical to extract_launches except for
the endpoint/timeout (not modelled), the target table and the task name. -/
def extract_starlink (st : DBState) (fetch : Except String (List ApiRecord)) (ts : Nat)
    (dagId : String) (store : StoreOutcome) (lo : DbOutcome) : DBState × Except String Nat :=
  match fetch with
  | .error e =>
      (log_pipeline_run st lo (dagId ++ ".extract_starlink") "failed" 0 (some e), .error e)
  | .ok satellites =>
      match store with
      | .connectFail msg =>
          (log_pipeline_run st lo (dagId ++ ".extract_starlink") "failed" 0 (some msg),
           .error msg)
      | s =>
          let st1 := { st with conns_opened := st.conns_opened + 1 }
          match upsertLoop st.starlink satellites ts "spacex_api_v4" (storeFailParam s) 0 0 0 with
          | .ok res =>
              let st2 := { st1 with starlink := res.1, conns_closed := st1.conns_closed + 1 }
              (log_pipeline_run st2 lo (dagId ++ ".extract_starlink") "success"
                 satellites.length none,
               .ok satellites.length)
          | .error e =>
              (log_pipeline_run st1 lo (dagId ++ ".extract_starlink") "failed" 0 (some e),
               .error e)

/-- SpaceXExtractor.extract_rockets: same shape, but the loop has no
RETURNING clause and no inserted/updated counters exist anywhere in the
function; only the batch length is logged and returned. -/
def extract_rockets (st : DBState) (fetch : Except String (List ApiRecord)) (ts : Nat)
    (dagId : String) (store : StoreOutcome) (lo : DbOutcome) : DBState × Except String Nat :=
  match fetch with
  | .error e =>
      (log_pipeline_run st lo (dagId ++ ".extract_rockets") "failed" 0 (some e), .error e)
  | .ok rockets =>
      match store with
      | .connectFail msg =>
          (log_pipeline_run st lo (dagId ++ ".extract_rockets") "failed" 0 (some msg),
           .error msg)
      | s =>
          let st1 := { st with conns_opened := st.conns_opened + 1 }
          match rocketsLoop st.rockets rockets ts "spacex_api_v4" (storeFailParam s) 0 with
          | .ok t2 =>
              let st2 := { st1 with rockets := t2, conns_closed := st1.conns_closed + 1 }
              (log_pipeline_run st2 lo (dagId ++ ".extract_rockets") "success"
                 rockets.length none,
               .ok rockets.length)
          | .error e =>
              (log_pipeline_run st1 lo (dagId ++ ".extract_rockets") "failed" 0 (some e),
               .error e)

/-- MAX(extracted_at) over a table; NULL (none) on an empty table. -/
def maxExtractedAt (t : Table) : Option Nat :=
  match t with
  | [] => none
  | r :: rest =>
    match maxExtractedAt rest with
    | none => some r.extracted_at
    | some m => some (max r.extracted_at m)

/-- The mapping returned by SpaceXExtractor.get_extraction_summary on its
success path: per-table counts and last-updated timestamps. -/
structure ExtractionSummary where
  launches_count : Nat
  starlink_count : Nat
  rockets_count : Nat
  last_launch_update : Option Nat
  last_starlink_update : Option Nat
deriving DecidableEq

/-- SpaceXExtractor.get_extraction_summary: one read-only round trip over the
three bronze tables.  The whole body is inside try/except; on any failure the
function logs and returns the empty mapping (modelled as none) instead of
re-raising.  A failure of the query after the connect leaves the connection
open (no finally block in the source). -/
def get_extraction_summary (st : DBState) (outcome : DbOutcome) :
    DBState × Option ExtractionSummary :=
  match outcome with
  | .connectFail _ => (st, none)
  | .queryFail _ => ({ st with conns_opened := st.conns_opened + 1 }, none)
  | .ok =>
      ({ st with conns_opened := st.conns_opened + 1, conns_closed := st.conns_closed + 1 },
       some
         { launches_count := st.launches.length,
           starlink_count := st.starlink.length,
           rockets_count := st.rockets.length,
           last_launch_update := maxExtractedAt st.launches,
           last_starlink_update := maxExtractedAt st.starlink })

/-! ### Quality gate (database_utils.check_data_quality and its DAG caller) -/

/-- The mapping of check name to numeric outcome built by check_data_quality. -/
structure QualityChecks where
  launches_duplicates : Nat
  launches_missing_data : Nat
  starlink_total : Nat
  starlink_active : Nat
  starlink_inactive : Nat
  recent_launches : Nat
deriving DecidableEq

/-- Seconds in the trailing freshness window, NOW() - INTERVAL of 7 days. -/
def sevenDays : Nat := 7 * 24 * 60 * 60

/-- The five SQL aggregates of check_data_quality, computed over the current
launches and starlink tables at evaluation time `now` (seconds):
total minus distinct ids; launch rows whose payload lacks name or date_utc;
starlink totals with the decay text compared against the literals of the
source, namely rows whose data->spaceTrack->>DECAYED text equals the string 0
(active) or the string 1 (inactive); launch rows extracted in the window. -/
def computeChecks (launches starlink : Table) (now : Nat) : QualityChecks :=
  { launches_duplicates := launches.length - (launches.map Row.id).dedup.length,
    launches_missing_data :=
      launches.countP (fun r => r.data.name.isNone || r.data.date_utc.isNone),
    starlink_total := starlink.length,
    starlink_active := starlink.countP (fun r => r.data.decayed == some "0"),
    starlink_inactive := starlink.countP (fun r => r.data.decayed == some "1"),
    recent_launches := launches.countP (fun r => decide (now - sevenDays ≤ r.extracted_at)) }

/-- Starlink rows whose decay text is neither the string 0 nor the string 1
(NULL spaceTrack, NULL DECAYED, or any other text): counted by no branch of
the CASE expressions, the implicit unknown class of the three-way partition. -/
def starlinkUnknown (starlink : Table) : Nat :=
  starlink.countP
    (fun r => !(r.data.decayed == some "0") && !(r.data.decayed == some "1"))

/-- database_utils.check_data_quality: opens one connection, computes the five
aggregates, closes, and returns the mapping; any exception (including a query
failing after the connect) is logged and RE-RAISED, and on that path the
connection is never closed.  Read-only: the tables are untouched. -/
def check_data_quality (st : DBState) (now : Nat) (outcome : DbOutcome) :
    DBState × Except String QualityChecks :=
  match outcome with
  | .connectFail e => (st, .error e)
  | .queryFail e => ({ st with conns_opened := st.conns_opened + 1 }, .error e)
  | .ok =>
      ({ st with conns_opened := st.conns_opened + 1, conns_closed := st.conns_closed + 1 },
       .ok (computeChecks st.launches st.starlink now))

/-- The threshold decision applied by the DAG task run_data_quality_checks to
a quality result: raise when more than 50 launches miss data, else raise when
the starlink total is zero, else pass the result through. -/
def qualityDecision (q : QualityChecks) : Except String QualityChecks :=
  if 50 < q.launches_missing_data then .error "Too many launches with missing data"
  else if q.starlink_total = 0 then .error "No Starlink satellite data found"
  else .ok q

/-- dags/spacex_etl_dag.run_data_quality_checks: evaluate the gate, then apply
the two fatal thresholds to the returned mapping. -/
def run_data_quality_checks (st : DBState) (now : Nat) (outcome : DbOutcome) :
    DBState × Except String QualityChecks :=
  let res := check_data_quality st now outcome
  match res.2 with
  | .error e => (res.1, .error e)
  | .ok q => (res.1, qualityDecision q)

/-- Whether an operation outcome is a raised failure. -/
def raisesFailure : Except String QualityChecks → Bool
  | .error _ => true
  | .ok _ => false

/-- The message of a raised failure, none when the call returned normally. -/
def gateError : Except String QualityChecks → Option String
  | .error e => some e
  | .ok _ => none

/-! ### The per-record statement of each collection, with its returned flag -/

/-- The three bronze collections loaded by the extractor. -/
inductive Collection where
  | launches
  | starlink
  | rockets
deriving DecidableEq

/-- The single SQL statement each extractor executes per record, together with
everything it hands back to Python: the launches and starlink statements end
in RETURNING (xmax = 0) AS inserted and so report the insert/update
classification; the rockets statement has no RETURNING clause and reports
nothing. -/
def upsertStatementResult (c : Collection) (t : Table) (rid : String) (p : Payload)
    (ts : Nat) : Table × Option Bool :=
  match c with
  | .launches =>
      let res := upsertRow t rid p ts "spacex_api_v4"
      (res.1, some res.2)
  | .starlink =>
      let res := upsertRow t rid p ts "spacex_api_v4"
      (res.1, some res.2)
  | .rockets => ((upsertRow t rid p ts "spacex_api_v4").1, none)

/-! ### Loop lemmas -/

theorem upsertLoop_none (t : Table) (records : List ApiRecord) (ts : Nat) (src : String)
    (idx ins upd : Nat) :
    upsertLoop t records ts src none idx ins upd =
      .ok ((upsertAll t records ts src).1,
           ins + (upsertAll t records ts src).2.1,
           upd + (upsertAll t records ts src).2.2) := by
  induction records generalizing t idx ins upd with
  | nil => simp [upsertLoop, upsertAll]
  | cons r rest ih =>
    simp only [upsertLoop, upsertAll, failsHere, Bool.false_eq_true, if_false]
    rw [ih]
    cases h : (upsertRow t r.id r.payload ts src).2 <;> simp [h] <;> omega

theorem upsertLoop_fail (t : Table) (records : List ApiRecord) (ts : Nat) (src : String)
    (k : Nat) (msg : String) (idx ins upd : Nat)
    (h1 : idx ≤ k) (h2 : k < idx + records.length) :
    upsertLoop t records ts src (some (k, msg)) idx ins upd = .error msg := by
  induction records generalizing t idx ins upd with
  | nil => simp at h2; omega
  | cons r rest ih =>
    by_cases hk : idx = k
    · simp [upsertLoop, failsHere, hk, failMsg]
    · have hd : (decide (idx = k)) = false := by simp [hk]
      simp only [upsertLoop, failsHere, hd, Bool.false_eq_true, if_false]
      exact ih _ _ _ _ (by omega) (by simp at h2 ⊢; omega)

theorem rocketsLoop_none (t : Table) (records : List ApiRecord) (ts : Nat) (src : String)
    (idx : Nat) :
    rocketsLoop t records ts src none idx = .ok (upsertAll t records ts src).1 := by
  induction records generalizing t idx with
  | nil => simp [rocketsLoop, upsertAll]
  | cons r rest ih =>
    simp only [rocketsLoop, upsertAll, failsHere, Bool.false_eq_true, if_false]
    exact ih _ _

theorem rocketsLoop_fail (t : Table) (records : List ApiRecord) (ts : Nat) (src : String)
    (k : Nat) (msg : String) (idx : Nat)
    (h1 : idx ≤ k) (h2 : k < idx + records.length) :
    rocketsLoop t records ts src (some (k, msg)) idx = .error msg := by
  induction records generalizing t idx with
  | nil => simp at h2; omega
  | cons r rest ih =>
    by_cases hk : idx = k
    · simp [rocketsLoop, failsHere, hk, failMsg]
    · have hd : (decide (idx = k)) = false := by simp [hk]
      simp only [rocketsLoop, failsHere, hd, Bool.false_eq_true, if_false]
      exact ih _ _ (by omega) (by simp at h2 ⊢; omega)

/-! ### Concrete inputs used by witnesses and counterexamples -/

/-- A launch document with both required fields present. -/
def payloadA : Payload :=
  { raw := "", name := some "Falcon Test", date_utc := some "2024-01-01", decayed := none }

/-- A second revision of the same launch. -/
def payloadB : Payload :=
  { raw := "", name := some "Falcon Test v2", date_utc := some "2024-01-01", decayed := none }

/-- First sighting of launch L1. -/
def recA : ApiRecord := { id := "L1", payload := payloadA }

/-- A later record carrying the same id L1 (duplicate within a batch). -/
def recB : ApiRecord := { id := "L1", payload := payloadB }

/-- The empty database: fresh bronze schema, no connections ever opened. -/
def st0 : DBState :=
  { launches := [], starlink := [], rockets := [], ledger := [],
    conns_opened := 0, conns_closed := 0 }

/-- Sixty launch rows whose payload lacks date_utc (the spec scenario). -/
def missingDateLaunches : Table :=
  (List.range 60).map (fun k =>
    { id := toString k,
      data := { raw := "", name := some "x", date_utc := none, decayed := none },
      extracted_at := 0, source_system := "spacex_api_v4" })

/-- Five starlink rows with no decay flag set (the spec scenario). -/
def noFlagStarlink : Table :=
  (List.range 5).map (fun k =>
    { id := toString k,
      data := { raw := "", name := none, date_utc := none, decayed := none },
      extracted_at := 0, source_system := "spacex_api_v4" })

/-- The database state of the quality-gate scenario: 60 launches missing a
date field, 5 satellites with no decay flag. -/
def stScenario : DBState :=
  { launches := missingDateLaunches, starlink := noFlagStarlink, rockets := [],
    ledger := [], conns_opened := 0, conns_closed := 0 }

theorem starlink_counts_partition (s : Table) :
    s.countP (fun r => r.data.decayed == some "0")
      + s.countP (fun r => r.data.decayed == some "1")
      + starlinkUnknown s = s.length := by
  induction s with
  | nil => simp [starlinkUnknown]
  | cons r rest ih =>
    simp only [starlinkUnknown, List.countP_cons] at ih ⊢
    rcases hd : r.data.decayed with _ | v
    · simp [hd]
      omega
    · by_cases h0 : v = "0"
      · have h1 : ¬ (v = "1") := by rw [h0]; decide
        simp [hd, h0, h1]
        omega
      · by_cases h1 : v = "1"
        · simp [hd, h0, h1]
          omega
        · simp [hd, h0, h1]
          omega

/-! ### The claims -/

/-- Claim C1, counterexample.  The claim asserts that for all three
collections each record's write is classified as insert or update by the
single upsert statement itself.  The statement executed by extract_rockets
(spacex_extractor.py, lines 210-217) has no RETURNING clause: evaluated on a
concrete input, it hands no classification flag back to Python, and the
function keeps no inserted/updated counters at all. -/
theorem c1_rockets_statement_not_classifying :
    (upsertStatementResult Collection.rockets [] "rocket-1" payloadA 0).2 = none := rfl

/-- Claim C1, as amended.  For the launches and starlink collections the
single upsert statement does return a classification flag (RETURNING
(xmax = 0)), and the accumulated counters of the extraction loop satisfy
inserted_count + updated_count = number of records in the batch; the rockets
statement returns no flag and the rockets extractor keeps no counts. -/
theorem c1_classified_partition (t : Table) (records : List ApiRecord)
    (ts : Nat) (rid : String) (p : Payload) :
    (upsertStatementResult Collection.launches t rid p ts).2.isSome = true ∧
    (upsertStatementResult Collection.starlink t rid p ts).2.isSome = true ∧
    (upsertStatementResult Collection.rockets t rid p ts).2 = none ∧
    (upsertAll t records ts "spacex_api_v4").2.1
        + (upsertAll t records ts "spacex_api_v4").2.2 = records.length :=
  ⟨rfl, rfl, rfl, upsertAll_counts t records ts "spacex_api_v4"⟩

/-- Claim C2.  Upserting the same record twice into an initially empty table:
the first call classifies it as inserted (counts 1/0), the second as updated
(counts 0/1), and after the second call the table holds exactly one row whose
payload is the second call's input. -/
theorem c2_upsert_twice (i : String) (p1 p2 : Payload) (ts1 ts2 : Nat) (src : String) :
    (upsertAll [] [⟨i, p1⟩] ts1 src).2.1 = 1 ∧
    (upsertAll [] [⟨i, p1⟩] ts1 src).2.2 = 0 ∧
    (upsertAll (upsertAll [] [⟨i, p1⟩] ts1 src).1 [⟨i, p2⟩] ts2 src).2.1 = 0 ∧
    (upsertAll (upsertAll [] [⟨i, p1⟩] ts1 src).1 [⟨i, p2⟩] ts2 src).2.2 = 1 ∧
    (upsertAll (upsertAll [] [⟨i, p1⟩] ts1 src).1 [⟨i, p2⟩] ts2 src).1
        = [{ id := i, data := p2, extracted_at := ts2, source_system := src }] := by
  refine ⟨rfl, rfl, ?_, ?_, ?_⟩ <;> simp [upsertAll, upsertRow]

/-- Claim C3.  Starting from a table with pairwise-distinct ids (in particular
the empty table), any sequence of upsert batches leaves the distinct-id count
equal to the row count; and within one batch the payload stored for an id is
the payload of its last occurrence in the batch (falling back to the previous
stored value when the batch does not carry the id). -/
theorem c3_unique_ids_last_wins (t : Table) (batches : List (List ApiRecord × Nat))
    (batch : List ApiRecord) (ts : Nat) (i : String)
    (h : (t.map Row.id).Nodup) :
    ((applyBatches t batches "spacex_api_v4").map Row.id).dedup.length
        = (applyBatches t batches "spacex_api_v4").length ∧
    lookupData (upsertAll t batch ts "spacex_api_v4").1 i
        = (specLastPayload batch i).or (lookupData t i) := by
  constructor
  · have hn := applyBatches_nodup t batches "spacex_api_v4" h
    rw [List.dedup_eq_self.mpr hn, List.length_map]
  · exact lookupData_upsertAll t batch ts "spacex_api_v4" i

/-- Claim C3, witness: one batch upserting two records with the same id L1
into the empty table; the stored payload is the second record's, and the
distinct-id count equals the row count. -/
theorem c3_witness :
    ((applyBatches [] [([recA, recB], 5)] "spacex_api_v4").map Row.id).dedup.length
        = (applyBatches [] [([recA, recB], 5)] "spacex_api_v4").length ∧
    lookupData (upsertAll [] [recA, recB] 7 "spacex_api_v4").1 "L1"
        = (specLastPayload [recA, recB] "L1").or (lookupData [] "L1") :=
  c3_unique_ids_last_wins [] [([recA, recB], 5)] [recA, recB] 7 "L1" (by simp)

/-- Claim C4.  For every failing extraction call — the fetch/decode raising,
or the store raising at any record of the batch — exactly one ledger entry is
appended (when the best-effort ledger write itself goes through), carrying
status failed, records_processed 0 and a non-null error_message equal to the
original error text, and the original error is re-raised unchanged to the
caller.  Stated for all three extractors. -/
theorem c4_failures_ledgered (st : DBState) (ts : Nat) (dagId e : String)
    (records : List ApiRecord) (k : Nat) (msg : String) (hk : k < records.length) :
    ((extract_launches st (.error e) ts dagId .ok .ok).1.ledger
        = st.ledger ++ [⟨dagId ++ ".extract_launches", "failed", 0, some e⟩] ∧
     (extract_launches st (.error e) ts dagId .ok .ok).2 = .error e) ∧
    ((extract_launches st (.ok records) ts dagId (.recordFail k msg) .ok).1.ledger
        = st.ledger ++ [⟨dagId ++ ".extract_launches", "failed", 0, some msg⟩] ∧
     (extract_launches st (.ok records) ts dagId (.recordFail k msg) .ok).2 = .error msg) ∧
    ((extract_starlink st (.error e) ts dagId .ok .ok).1.ledger
        = st.ledger ++ [⟨dagId ++ ".extract_starlink", "failed", 0, some e⟩] ∧
     (extract_starlink st (.error e) ts dagId .ok .ok).2 = .error e) ∧
    ((extract_starlink st (.ok records) ts dagId (.recordFail k msg) .ok).1.ledger
        = st.ledger ++ [⟨dagId ++ ".extract_starlink", "failed", 0, some msg⟩] ∧
     (extract_starlink st (.ok records) ts dagId (.recordFail k msg) .ok).2 = .error msg) ∧
    ((extract_rockets st (.error e) ts dagId .ok .ok).1.ledger
        = st.ledger ++ [⟨dagId ++ ".extract_rockets", "failed", 0, some e⟩] ∧
     (extract_rockets st (.error e) ts dagId .ok .ok).2 = .error e) ∧
    ((extract_rockets st (.ok records) ts dagId (.recordFail k msg) .ok).1.ledger
        = st.ledger ++ [⟨dagId ++ ".extract_rockets", "failed", 0, some msg⟩] ∧
     (extract_rockets st (.ok records) ts dagId (.recordFail k msg) .ok).2 = .error msg) := by
  have hl := upsertLoop_fail st.launches records ts "spacex_api_v4" k msg 0 0 0
    (Nat.zero_le k) (by omega)
  have hs := upsertLoop_fail st.starlink records ts "spacex_api_v4" k msg 0 0 0
    (Nat.zero_le k) (by omega)
  have hr := rocketsLoop_fail st.rockets records ts "spacex_api_v4" k msg 0
    (Nat.zero_le k) (by omega)
  refine ⟨⟨rfl, rfl⟩, ⟨?_, ?_⟩, ⟨rfl, rfl⟩, ⟨?_, ?_⟩, ⟨rfl, rfl⟩, ⟨?_, ?_⟩⟩ <;>
    simp [extract_launches, extract_starlink, extract_rockets, storeFailParam,
      log_pipeline_run, hl, hs, hr]

/-- Claim C4, witness: a failing fetch and a store failing at the first
record of a one-record batch, against the empty database. -/
theorem c4_witness :
    ((extract_launches st0 (.error "boom") 3 "spacex_etl_pipeline" .ok .ok).1.ledger
        = st0.ledger
          ++ [⟨"spacex_etl_pipeline" ++ ".extract_launches", "failed", 0, some "boom"⟩] ∧
     (extract_launches st0 (.error "boom") 3 "spacex_etl_pipeline" .ok .ok).2
        = .error "boom") ∧
    ((extract_launches st0 (.ok [recA]) 3 "spacex_etl_pipeline"
          (.recordFail 0 "db down") .ok).1.ledger
        = st0.ledger
          ++ [⟨"spacex_etl_pipeline" ++ ".extract_launches", "failed", 0, some "db down"⟩] ∧
     (extract_launches st0 (.ok [recA]) 3 "spacex_etl_pipeline"
          (.recordFail 0 "db down") .ok).2 = .error "db down") ∧
    ((extract_starlink st0 (.error "boom") 3 "spacex_etl_pipeline" .ok .ok).1.ledger
        = st0.ledger
          ++ [⟨"spacex_etl_pipeline" ++ ".extract_starlink", "failed", 0, some "boom"⟩] ∧
     (extract_starlink st0 (.error "boom") 3 "spacex_etl_pipeline" .ok .ok).2
        = .error "boom") ∧
    ((extract_starlink st0 (.ok [recA]) 3 "spacex_etl_pipeline"
          (.recordFail 0 "db down") .ok).1.ledger
        = st0.ledger
          ++ [⟨"spacex_etl_pipeline" ++ ".extract_starlink", "failed", 0, some "db down"⟩] ∧
     (extract_starlink st0 (.ok [recA]) 3 "spacex_etl_pipeline"
          (.recordFail 0 "db down") .ok).2 = .error "db down") ∧
    ((extract_rockets st0 (.error "boom") 3 "spacex_etl_pipeline" .ok .ok).1.ledger
        = st0.ledger
          ++ [⟨"spacex_etl_pipeline" ++ ".extract_rockets", "failed", 0, some "boom"⟩] ∧
     (extract_rockets st0 (.error "boom") 3 "spacex_etl_pipeline" .ok .ok).2
        = .error "boom") ∧
    ((extract_rockets st0 (.ok [recA]) 3 "spacex_etl_pipeline"
          (.recordFail 0 "db down") .ok).1.ledger
        = st0.ledger
          ++ [⟨"spacex_etl_pipeline" ++ ".extract_rockets", "failed", 0, some "db down"⟩] ∧
     (extract_rockets st0 (.ok [recA]) 3 "spacex_etl_pipeline"
          (.recordFail 0 "db down") .ok).2 = .error "db down") :=
  c4_failures_ledgered st0 3 "spacex_etl_pipeline" "boom" [recA] 0 "db down" (by decide)

/-- Claim C5.  The ledger append never propagates its own failures: it is a
total function back into the database state (the source wraps its whole body
in try/except and swallows every exception), a connect failure leaves the
state untouched, a failure of the insert leaves the ledger untouched, and
the outcome an extraction returns to its caller is identical whatever the
ledger write does — a ledger failure can never mask the real result. -/
theorem c5_ledger_failures_swallowed :
    (∀ (st : DBState) (e pname pstatus : String) (n : Nat) (err : Option String),
      log_pipeline_run st (.connectFail e) pname pstatus n err = st ∧
      (log_pipeline_run st (.queryFail e) pname pstatus n err).ledger = st.ledger) ∧
    (∀ (st : DBState) (fetch : Except String (List ApiRecord)) (ts : Nat)
       (dagId : String) (store : StoreOutcome) (lo lo2 : DbOutcome),
      (extract_launches st fetch ts dagId store lo).2
          = (extract_launches st fetch ts dagId store lo2).2 ∧
      (extract_starlink st fetch ts dagId store lo).2
          = (extract_starlink st fetch ts dagId store lo2).2 ∧
      (extract_rockets st fetch ts dagId store lo).2
          = (extract_rockets st fetch ts dagId store lo2).2) := by
  constructor
  · intro st e pname pstatus n err
    exact ⟨rfl, rfl⟩
  · intro st fetch ts dagId store lo lo2
    refine ⟨?_, ?_, ?_⟩ <;> cases fetch with
    | error e => rfl
    | ok l =>
      cases store with
      | connectFail m => rfl
      | ok =>
          first
          | cases h : upsertLoop st.launches l ts "spacex_api_v4" none 0 0 0 <;>
              simp [extract_launches, storeFailParam, h]
          | cases h : upsertLoop st.starlink l ts "spacex_api_v4" none 0 0 0 <;>
              simp [extract_starlink, storeFailParam, h]
          | cases h : rocketsLoop st.rockets l ts "spacex_api_v4" none 0 <;>
              simp [extract_rockets, storeFailParam, h]
      | recordFail k m =>
          first
          | cases h : upsertLoop st.launches l ts "spacex_api_v4" (some (k, m)) 0 0 0 <;>
              simp [extract_launches, storeFailParam, h]
          | cases h : upsertLoop st.starlink l ts "spacex_api_v4" (some (k, m)) 0 0 0 <;>
              simp [extract_starlink, storeFailParam, h]
          | cases h : rocketsLoop st.rockets l ts "spacex_api_v4" (some (k, m)) 0 <;>
              simp [extract_rockets, storeFailParam, h]

/-- Claim C6.  The DAG task raises on a quality result exactly when more than
50 launch rows miss a required field or the satellite total is zero; the
other four check values are advisory (the decision and its message do not
depend on them); and on the spec scenario — 60 launches missing date_utc,
5 satellites with no decay flag — the caller raises the 50-row-threshold
failure while the satellite total is positive. -/
theorem c6_gate_thresholds (q : QualityChecks) :
    (raisesFailure (qualityDecision q) = true
        ↔ 50 < q.launches_missing_data ∨ q.starlink_total = 0) ∧
    (∀ (d a i r d2 a2 i2 r2 : Nat),
      gateError (qualityDecision ⟨d, q.launches_missing_data, q.starlink_total, a, i, r⟩)
        = gateError
            (qualityDecision ⟨d2, q.launches_missing_data, q.starlink_total, a2, i2, r2⟩)) ∧
    (run_data_quality_checks stScenario 0 .ok).2
        = .error "Too many launches with missing data" ∧
    (computeChecks stScenario.launches stScenario.starlink 0).launches_missing_data = 60 ∧
    (computeChecks stScenario.launches stScenario.starlink 0).starlink_total = 5 := by
  refine ⟨?_, ?_, ?_, ?_, ?_⟩
  · by_cases h1 : 50 < q.launches_missing_data
    · simp [qualityDecision, raisesFailure, h1]
    · by_cases h2 : q.starlink_total = 0 <;>
        simp [qualityDecision, raisesFailure, h1, h2]
  · intro d a i r d2 a2 i2 r2
    by_cases h1 : 50 < q.launches_missing_data
    · simp [qualityDecision, gateError, h1]
    · by_cases h2 : q.starlink_total = 0 <;>
        simp [qualityDecision, gateError, h1, h2]
  · rfl
  · rfl
  · rfl

/-- Claim C6, witness: the threshold equivalence applied to the scenario
result, discharging its left-hand side at the concrete count of 60. -/
theorem c6_witness :
    raisesFailure
      (qualityDecision (computeChecks stScenario.launches stScenario.starlink 0)) = true :=
  (c6_gate_thresholds (computeChecks stScenario.launches stScenario.starlink 0)).1.mpr
    (Or.inl (by decide))

/-- Claim C7.  The satellite counts of the quality gate partition the starlink
table three ways: every row is counted in exactly one of active (decay text
equal to the string 0), inactive (equal to the string 1) or unknown (anything
else, including a missing flag); hence active + inactive never exceeds the
total and the unknown class is the total minus the other two. -/
theorem c7_satellite_partition (launches starlink : Table) (now : Nat) :
    (computeChecks launches starlink now).starlink_active
        + (computeChecks launches starlink now).starlink_inactive
        + starlinkUnknown starlink
      = (computeChecks launches starlink now).starlink_total ∧
    (computeChecks launches starlink now).starlink_active
        + (computeChecks launches starlink now).starlink_inactive
      ≤ (computeChecks launches starlink now).starlink_total ∧
    starlinkUnknown starlink
      = (computeChecks launches starlink now).starlink_total
        - (computeChecks launches starlink now).starlink_active
        - (computeChecks launches starlink now).starlink_inactive := by
  have h := starlink_counts_partition starlink
  simp only [computeChecks]
  exact ⟨h, by omega, by omega⟩

/-- Claim C8, counterexample.  The claim states that no call can terminate
while still holding an open connection.  The source has no finally block and
no context manager, so at a concrete failing input — a one-record batch whose
upsert statement raises — extract_launches terminates (exceptionally) with 2
connections opened (the store connection and the ledger connection) but only
1 ever closed (the ledger one): one connection is still held.  The quality
check likewise ends a failing call with its connection still open. -/
theorem c8_connection_leak_on_failure :
    (extract_launches st0 (.ok [recA]) 3 "spacex_etl_pipeline"
        (.recordFail 0 "connection reset") .ok).1.conns_opened = 2 ∧
    (extract_launches st0 (.ok [recA]) 3 "spacex_etl_pipeline"
        (.recordFail 0 "connection reset") .ok).1.conns_closed = 1 ∧
    (check_data_quality stScenario 0 (.queryFail "connection reset")).1.conns_opened = 1 ∧
    (check_data_quality stScenario 0 (.queryFail "connection reset")).1.conns_closed = 0 :=
  ⟨rfl, rfl, rfl, rfl⟩

/-- Claim C8, as amended.  Every database interaction releases its connection
on its success path (open and close counters advance together), but on an
exit path raised after the connection was acquired — the store failing
mid-batch, the ledger insert failing, the quality-check or summary query
failing — the connection is acquired and never closed by the code (release is
left to interpreter garbage collection). -/
theorem c8_connection_release (st : DBState) (records : List ApiRecord)
    (ts now : Nat) (dagId pname pstatus e msg : String) (n k : Nat)
    (err : Option String) (hk : k < records.length) :
    ((extract_launches st (.ok records) ts dagId .ok .ok).1.conns_opened
        = st.conns_opened + 2 ∧
     (extract_launches st (.ok records) ts dagId .ok .ok).1.conns_closed
        = st.conns_closed + 2) ∧
    ((check_data_quality st now .ok).1.conns_opened = st.conns_opened + 1 ∧
     (check_data_quality st now .ok).1.conns_closed = st.conns_closed + 1) ∧
    ((get_extraction_summary st .ok).1.conns_opened = st.conns_opened + 1 ∧
     (get_extraction_summary st .ok).1.conns_closed = st.conns_closed + 1) ∧
    ((log_pipeline_run st .ok pname pstatus n err).conns_opened = st.conns_opened + 1 ∧
     (log_pipeline_run st .ok pname pstatus n err).conns_closed = st.conns_closed + 1) ∧
    ((extract_launches st (.ok records) ts dagId (.recordFail k msg) .ok).1.conns_opened
        = st.conns_opened + 2 ∧
     (extract_launches st (.ok records) ts dagId (.recordFail k msg) .ok).1.conns_closed
        = st.conns_closed + 1) ∧
    ((check_data_quality st now (.queryFail e)).1.conns_opened = st.conns_opened + 1 ∧
     (check_data_quality st now (.queryFail e)).1.conns_closed = st.conns_closed) ∧
    ((get_extraction_summary st (.queryFail e)).1.conns_opened = st.conns_opened + 1 ∧
     (get_extraction_summary st (.queryFail e)).1.conns_closed = st.conns_closed) ∧
    ((log_pipeline_run st (.queryFail e) pname pstatus n err).conns_opened
        = st.conns_opened + 1 ∧
     (log_pipeline_run st (.queryFail e) pname pstatus n err).conns_closed
        = st.conns_closed) := by
  have hl := upsertLoop_fail st.launches records ts "spacex_api_v4" k msg 0 0 0
    (Nat.zero_le k) (by omega)
  have hl2 := upsertLoop_none st.launches records ts "spacex_api_v4" 0 0 0
  refine ⟨⟨?_, ?_⟩, ⟨rfl, rfl⟩, ⟨rfl, rfl⟩, ⟨rfl, rfl⟩, ⟨?_, ?_⟩,
      ⟨rfl, rfl⟩, ⟨rfl, rfl⟩, ⟨rfl, rfl⟩⟩ <;>
    simp [extract_launches, storeFailParam, log_pipeline_run, hl, hl2]

/-- Claim C8, witness: the amended release accounting at a concrete state and
a concrete one-record batch failing at its first record. -/
theorem c8_witness :
    ((extract_launches st0 (.ok [recA]) 3 "spacex_etl_pipeline" .ok .ok).1.conns_opened
        = st0.conns_opened + 2 ∧
     (extract_launches st0 (.ok [recA]) 3 "spacex_etl_pipeline" .ok .ok).1.conns_closed
        = st0.conns_closed + 2) ∧
    ((check_data_quality st0 9 .ok).1.conns_opened = st0.conns_opened + 1 ∧
     (check_data_quality st0 9 .ok).1.conns_closed = st0.conns_closed + 1) ∧
    ((get_extraction_summary st0 .ok).1.conns_opened = st0.conns_opened + 1 ∧
     (get_extraction_summary st0 .ok).1.conns_closed = st0.conns_closed + 1) ∧
    ((log_pipeline_run st0 .ok "p" "success" 4 none).conns_opened = st0.conns_opened + 1 ∧
     (log_pipeline_run st0 .ok "p" "success" 4 none).conns_closed = st0.conns_closed + 1) ∧
    ((extract_launches st0 (.ok [recA]) 3 "spacex_etl_pipeline"
          (.recordFail 0 "db down") .ok).1.conns_opened = st0.conns_opened + 2 ∧
     (extract_launches st0 (.ok [recA]) 3 "spacex_etl_pipeline"
          (.recordFail 0 "db down") .ok).1.conns_closed = st0.conns_closed + 1) ∧
    ((check_data_quality st0 9 (.queryFail "db down")).1.conns_opened
        = st0.conns_opened + 1 ∧
     (check_data_quality st0 9 (.queryFail "db down")).1.conns_closed = st0.conns_closed) ∧
    ((get_extraction_summary st0 (.queryFail "db down")).1.conns_opened
        = st0.conns_opened + 1 ∧
     (get_extraction_summary st0 (.queryFail "db down")).1.conns_closed
        = st0.conns_closed) ∧
    ((log_pipeline_run st0 (.queryFail "db down") "p" "success" 4 none).conns_opened
        = st0.conns_opened + 1 ∧
     (log_pipeline_run st0 (.queryFail "db down") "p" "success" 4 none).conns_closed
        = st0.conns_closed) :=
  c8_connection_release st0 [recA] 3 9 "spacex_etl_pipeline" "p" "success" "db down"
    "db down" 4 0 none (by decide)

/-- One rocket row whose extraction timestamp is the recognisable value 42. -/
def rocketRow : Row :=
  { id := "falcon9",
    data := { raw := "", name := some "Falcon 9", date_utc := none, decayed := none },
    extracted_at := 42, source_system := "spacex_api_v4" }

/-- A database state whose rockets table is the only nonempty one. -/
def stRockets : DBState :=
  { launches := [], starlink := [], rockets := [rocketRow], ledger := [],
    conns_opened := 0, conns_closed := 0 }

/-- Claim C9, counterexample.  The claim asserts that on success the reader
returns the per-table counts and last-updated timestamps for all three raw
tables.  The query of get_extraction_summary (spacex_extractor.py, lines
259-266) selects five values — three counts but MAX(extracted_at) only for
launches and starlink — and the returned mapping (lines 272-278) holds
exactly those five; the embedding's ExtractionSummary mirrors them field for
field.  At a concrete state whose rockets table has last-updated timestamp
42, the summary the code returns carries that timestamp nowhere: its only
timestamp fields are the launch and starlink ones, both NULL here. -/
theorem c9_rockets_timestamp_missing :
    maxExtractedAt stRockets.rockets = some 42 ∧
    (get_extraction_summary stRockets .ok).2 =
      some { launches_count := 0, starlink_count := 0, rockets_count := 1,
             last_launch_update := none, last_starlink_update := none } :=
  ⟨rfl, rfl⟩

/-- Claim C9, as amended.  The extraction summary reader never raises (its
embedding is a total function into an optional summary): when the round trip
succeeds it returns the row counts of all three raw tables but last-updated
timestamps for launches and starlink only (the query computes no rockets
timestamp), when the connect or the query fails it returns the empty mapping
instead of propagating, and on every path it leaves all three tables and the
ledger unchanged. -/
theorem c9_summary_best_effort (st : DBState) (e : String) :
    ((get_extraction_summary st DbOutcome.ok).1.launches = st.launches ∧
     (get_extraction_summary st DbOutcome.ok).1.starlink = st.starlink ∧
     (get_extraction_summary st DbOutcome.ok).1.rockets = st.rockets ∧
     (get_extraction_summary st DbOutcome.ok).1.ledger = st.ledger) ∧
    ((get_extraction_summary st (.connectFail e)).1 = st ∧
     (get_extraction_summary st (.queryFail e)).1.launches = st.launches ∧
     (get_extraction_summary st (.queryFail e)).1.starlink = st.starlink ∧
     (get_extraction_summary st (.queryFail e)).1.rockets = st.rockets ∧
     (get_extraction_summary st (.queryFail e)).1.ledger = st.ledger) ∧
    (get_extraction_summary st DbOutcome.ok).2
        = some { launches_count := st.launches.length,
                 starlink_count := st.starlink.length,
                 rockets_count := st.rockets.length,
                 last_launch_update := maxExtractedAt st.launches,
                 last_starlink_update := maxExtractedAt st.starlink } ∧
    (get_extraction_summary st (.connectFail e)).2 = none ∧
    (get_extraction_summary st (.queryFail e)).2 = none :=
  ⟨⟨rfl, rfl, rfl, rfl⟩, ⟨rfl, rfl, rfl, rfl, rfl⟩, rfl, rfl, rfl⟩

/-- Claim C10.  Each extraction is all-or-nothing per batch: the loop writes
into one transaction and the single commit happens only after every upsert
succeeded, so when the statement for any record of the batch raises, the
connection is abandoned uncommitted, the transaction rolls back and the
visible table is exactly what it was before the call — while on full success
the whole upserted batch becomes visible.  Stated for all three extractors
and for every outcome of the best-effort ledger write. -/
theorem c10_batch_all_or_nothing (st : DBState) (records : List ApiRecord) (ts : Nat)
    (dagId msg : String) (k : Nat) (lo : DbOutcome) (hk : k < records.length) :
    ((extract_launches st (.ok records) ts dagId (.recordFail k msg) lo).1.launches
        = st.launches ∧
     (extract_launches st (.ok records) ts dagId (.recordFail k msg) lo).2 = .error msg) ∧
    ((extract_starlink st (.ok records) ts dagId (.recordFail k msg) lo).1.starlink
        = st.starlink ∧
     (extract_starlink st (.ok records) ts dagId (.recordFail k msg) lo).2 = .error msg) ∧
    ((extract_rockets st (.ok records) ts dagId (.recordFail k msg) lo).1.rockets
        = st.rockets ∧
     (extract_rockets st (.ok records) ts dagId (.recordFail k msg) lo).2 = .error msg) ∧
    (extract_launches st (.ok records) ts dagId .ok lo).1.launches
        = (upsertAll st.launches records ts "spacex_api_v4").1 ∧
    (extract_starlink st (.ok records) ts dagId .ok lo).1.starlink
        = (upsertAll st.starlink records ts "spacex_api_v4").1 ∧
    (extract_rockets st (.ok records) ts dagId .ok lo).1.rockets
        = (upsertAll st.rockets records ts "spacex_api_v4").1 := by
  have hl := upsertLoop_fail st.launches records ts "spacex_api_v4" k msg 0 0 0
    (Nat.zero_le k) (by omega)
  have hs := upsertLoop_fail st.starlink records ts "spacex_api_v4" k msg 0 0 0
    (Nat.zero_le k) (by omega)
  have hr := rocketsLoop_fail st.rockets records ts "spacex_api_v4" k msg 0
    (Nat.zero_le k) (by omega)
  have hl2 := upsertLoop_none st.launches records ts "spacex_api_v4" 0 0 0
  have hs2 := upsertLoop_none st.starlink records ts "spacex_api_v4" 0 0 0
  have hr2 := rocketsLoop_none st.rockets records ts "spacex_api_v4" 0
  refine ⟨⟨?_, ?_⟩, ⟨?_, ?_⟩, ⟨?_, ?_⟩, ?_, ?_, ?_⟩ <;>
    cases lo <;>
      simp [extract_launches, extract_starlink, extract_rockets, storeFailParam,
        log_pipeline_run, hl, hs, hr, hl2, hs2, hr2]

/-- Claim C10, witness: a two-record batch whose second upsert raises leaves
the table untouched; the same batch with a healthy store commits both rows. -/
theorem c10_witness :
    ((extract_launches st0 (.ok [recA, recB]) 3 "spacex_etl_pipeline"
          (.recordFail 1 "db down") .ok).1.launches = st0.launches ∧
     (extract_launches st0 (.ok [recA, recB]) 3 "spacex_etl_pipeline"
          (.recordFail 1 "db down") .ok).2 = .error "db down") ∧
    ((extract_starlink st0 (.ok [recA, recB]) 3 "spacex_etl_pipeline"
          (.recordFail 1 "db down") .ok).1.starlink = st0.starlink ∧
     (extract_starlink st0 (.ok [recA, recB]) 3 "spacex_etl_pipeline"
          (.recordFail 1 "db down") .ok).2 = .error "db down") ∧
    ((extract_rockets st0 (.ok [recA, recB]) 3 "spacex_etl_pipeline"
          (.recordFail 1 "db down") .ok).1.rockets = st0.rockets ∧
     (extract_rockets st0 (.ok [recA, recB]) 3 "spacex_etl_pipeline"
          (.recordFail 1 "db down") .ok).2 = .error "db down") ∧
    (extract_launches st0 (.ok [recA, recB]) 3 "spacex_etl_pipeline" .ok .ok).1.launches
        = (upsertAll st0.launches [recA, recB] 3 "spacex_api_v4").1 ∧
    (extract_starlink st0 (.ok [recA, recB]) 3 "spacex_etl_pipeline" .ok .ok).1.starlink
        = (upsertAll st0.starlink [recA, recB] 3 "spacex_api_v4").1 ∧
    (extract_rockets st0 (.ok [recA, recB]) 3 "spacex_etl_pipeline" .ok .ok).1.rockets
        = (upsertAll st0.rockets [recA, recB] 3 "spacex_api_v4").1 :=
  c10_batch_all_or_nothing st0 [recA, recB] 3 "spacex_etl_pipeline" "db down" 1
    DbOutcome.ok (by decide)

end SpacexEtl
